import Mathlib

/-!
Shallow embedding of the two report-generation scripts of the
gunj-operator repository:

  scripts/generate-maturity-report.py   (class MaturityReportGenerator)
  scripts/generate-security-dashboard.py (class SecurityDashboardGenerator)

File-system and subprocess effects are modelled by explicit environment
parameters: a JSON input file is `absent`, `malformed` (exists but does
not parse) or `valid` with an already-parsed record, and the single
subprocess invocation either raises an exception in the caller or
completes with an exit code.  Python numbers are modelled exactly:
scores are integers, the one fractional constant (84.3) is a rational,
`round(x)` and the `:.0f` format both round half to even, and `int(x)`
truncates toward zero.
-/

namespace Gunj

/-- The `scores` object of `maturity-assessment-report.json`. -/
structure Scores where
  total : Int
  percentage : Int
  level1 : Int
  level2 : Int
  level3 : Int
  level4 : Int
  level5 : Int
  deriving Repr, DecidableEq

/-- A parsed maturity assessment record. -/
structure AssessmentRecord where
  timestamp : String
  project : String
  scores : Scores
  maturityLevel : String
  deriving Repr, DecidableEq

/-- The all-zero default record built by `_load_assessment_data` when the
assessment file does not exist; `now` is the `utcnow` timestamp string. -/
def defaultAssessmentRecord (now : String) : AssessmentRecord :=
  { timestamp := now
    project := "gunj-operator"
    scores := { total := 0, percentage := 0,
                level1 := 0, level2 := 0, level3 := 0, level4 := 0, level5 := 0 }
    maturityLevel := "0 - Traditional" }

/-- State of a JSON input file on disk: missing, present but not valid
JSON, or present and parsed to a record of type `α`. -/
inductive JsonFile (α : Type) where
  | absent : JsonFile α
  | malformed : JsonFile α
  | valid (a : α) : JsonFile α
  deriving Repr, DecidableEq

/-- The failure `json.load` raises on malformed input
(`json.JSONDecodeError`). -/
inductive ParseError where
  | jsonDecodeError : ParseError
  deriving Repr, DecidableEq

/-- The loader `MaturityReportGenerator._load_assessment_data`: if the file exists it
is parsed with `json.load` (which raises on malformed input, propagated);
otherwise the default record is returned. -/
def loadAssessmentData (file : JsonFile AssessmentRecord) (now : String) :
    Except ParseError AssessmentRecord :=
  match file with
  | .valid r => .ok r
  | .malformed => .error .jsonDecodeError
  | .absent => .ok (defaultAssessmentRecord now)

/-! ### The recommendation engine (`_generate_recommendations`) -/

def recDockerfile : String := "Create a Dockerfile for containerizing the application"
def recMultiStage : String := "Implement multi-stage builds to optimize container size"
def recNonRoot : String := "Configure containers to run as non-root user"
def recMinimalBase : String := "Use minimal base images (distroless or alpine)"
def recCRDs : String := "Define Custom Resource Definitions (CRDs)"
def recController : String := "Implement Kubernetes controller pattern"
def recHelm : String := "Create Helm charts for deployment"
def recRBAC : String := "Configure RBAC policies"
def recMicroservices : String := "Decompose application into microservices"
def recServiceMesh : String := "Implement service mesh for inter-service communication"
def recTracing : String := "Add distributed tracing with OpenTelemetry"
def recCloudProviders : String := "Integrate with cloud provider services (AWS/Azure/GCP)"
def recMultiCloud : String := "Implement multi-cloud support"
def recCostOpt : String := "Add cost optimization features"
def recGitOps : String := "Implement GitOps workflow"
def recE2E : String := "Add comprehensive E2E testing"
def recPredictive : String := "Implement predictive scaling and self-healing"
def recExcellent : String :=
  "Excellent! Continue maintaining high standards and consider contributing to CNCF"

/-- The strings the level-1 branch of `_generate_recommendations` can append. -/
def level1Strings : List String := [recDockerfile, recMultiStage, recNonRoot, recMinimalBase]

/-- The strings the level-2 branch can append. -/
def level2Strings : List String := [recCRDs, recController, recHelm, recRBAC]

/-- The strings the level-3 branch can append. -/
def level3Strings : List String := [recMicroservices, recServiceMesh, recTracing]

/-- The strings the level-4 branch can append. -/
def level4Strings : List String := [recCloudProviders, recMultiCloud, recCostOpt]

/-- The strings the level-5 branch can append. -/
def level5Strings : List String := [recGitOps, recE2E, recPredictive]

/-- Level-1 branch: `if scores['level1'] < 20:` with three nested
threshold checks and one unconditional append. -/
def level1Block (s : Scores) : List String :=
  if s.level1 < 20 then
    (if s.level1 < 5 then [recDockerfile] else []) ++
    (if s.level1 < 10 then [recMultiStage] else []) ++
    (if s.level1 < 15 then [recNonRoot] else []) ++
    [recMinimalBase]
  else []

/-- Level-2 branch: `if scores['level2'] < 35 and scores['level1'] >= 15:`. -/
def level2Block (s : Scores) : List String :=
  if s.level2 < 35 ∧ 15 ≤ s.level1 then
    (if s.level2 < 10 then [recCRDs] else []) ++
    (if s.level2 < 20 then [recController] else []) ++
    [recHelm, recRBAC]
  else []

/-- Level-3 branch: `if scores['level3'] < 25 and scores['level2'] >= 25:`. -/
def level3Block (s : Scores) : List String :=
  if s.level3 < 25 ∧ 25 ≤ s.level2 then
    [recMicroservices, recServiceMesh, recTracing]
  else []

/-- Level-4 branch: `if scores['level4'] < 15 and scores['level3'] >= 15:`. -/
def level4Block (s : Scores) : List String :=
  if s.level4 < 15 ∧ 15 ≤ s.level3 then
    [recCloudProviders, recMultiCloud, recCostOpt]
  else []

/-- Level-5 branch: `if scores['level5'] < 20 and scores['level4'] >= 10:`. -/
def level5Block (s : Scores) : List String :=
  if s.level5 < 20 ∧ 10 ≤ s.level4 then
    [recGitOps, recE2E, recPredictive]
  else []

/-- The engine `_generate_recommendations`: the five branches append in order; if no
rule fired, the single fallback message is emitted. -/
def generateRecommendations (s : Scores) : List String :=
  let recs := level1Block s ++ level2Block s ++ level3Block s ++
              level4Block s ++ level5Block s
  if recs = [] then [recExcellent] else recs

/-! ### Percentage arithmetic

Both renderers compute `(score / category_maximum) * 100` in Python float
arithmetic and then round for display: the HTML report with `round(...)`,
the Markdown report with the `:.0f` format.  Both round half to even.  On
our exact rational model this is round-half-even of the fraction
`score * 100 / maximum`; for integer scores in `[0, maximum]` with the
maximums used here the exact value is never within `1/14` of a half-integer
tie, so the float computation rounds to the same integer. -/

/-- Round-half-to-even of `num / den` for `den > 0` (Python `round` and
the `:.0f` float format). -/
def roundHalfEven (num den : Int) : Int :=
  let q := Int.fdiv num den
  let r := num - q * den
  if 2 * r < den then q
  else if den < 2 * r then q + 1
  else if q % 2 = 0 then q else q + 1

/-- The per-level displayed percentage: `round((score / maxScore) * 100)`
in `generate_html_report` and `{(score/maxScore)*100:.0f}` in
`generate_markdown_report`. -/
def levelPct (score maxScore : Int) : Int := roundHalfEven (score * 100) maxScore

/-- Specification predicate: the displayed percentage for `score` out of `m` is the
unique nearest integer to `score * 100 / m` and lies in `[0, 100]`. -/
abbrev pctOk (score : Nat) (m : Int) : Prop :=
  0 ≤ levelPct score m ∧ levelPct score m ≤ 100 ∧
    2 * |(score : Int) * 100 - levelPct score m * m| < m

/-! ### The Markdown renderer (`generate_markdown_report`) -/

/-- One data row of the Markdown score table. -/
def mdScoreRow (lvl desc : String) (score maxScore : Int) : String :=
  "| " ++ lvl ++ " | " ++ desc ++ " | " ++ toString score ++ " | " ++
    toString maxScore ++ " | " ++ toString (levelPct score maxScore) ++ "% |\n"

/-- The Markdown score-breakdown table. -/
def mdScoreTable (s : Scores) : String :=
  "| Level | Description | Score | Max | Percentage |\n" ++
  "|-------|-------------|-------|-----|------------|\n" ++
  mdScoreRow "1" "Containerization" s.level1 20 ++
  mdScoreRow "2" "Dynamic Orchestration" s.level2 35 ++
  mdScoreRow "3" "Microservices Oriented" s.level3 25 ++
  mdScoreRow "4" "Cloud Native Services" s.level4 15 ++
  mdScoreRow "5" "Cloud Native Operations" s.level5 20 ++
  "| **Total** | | **" ++ toString s.total ++ "** | **115** | **" ++
    toString s.percentage ++ "%** |\n"

/-- The numbered recommendation lines: `f"{i}. {rec}\n"` for
`i, rec in enumerate(recommendations, 1)`. -/
def mdRecLines (recs : List String) : String :=
  String.join ((recs.enumFrom 1).map (fun p => toString p.1 ++ ". " ++ p.2 ++ "\n"))

/-- The renderer `generate_markdown_report` as a pure function of the loaded record. -/
def generateMarkdownReport (r : AssessmentRecord) : String :=
  "# Cloud Native Maturity Assessment Report\n\n" ++
  "**Project**: Gunj Operator  \n" ++
  "**Generated**: " ++ r.timestamp ++ "  \n" ++
  "**Maturity Level**: " ++ r.maturityLevel ++ "  \n\n" ++
  "## Executive Summary\n\n" ++
  "The Gunj Operator project has achieved a maturity score of **" ++
    toString r.scores.total ++ "/115** (" ++ toString r.scores.percentage ++
    "%), \nplacing it at **" ++ r.maturityLevel ++ "**.\n\n" ++
  "## Score Breakdown\n\n" ++
  mdScoreTable r.scores ++
  "\n## Recommendations\n\n" ++
  mdRecLines (generateRecommendations r.scores) ++
  "\n## Next Steps\n\n" ++
  "1. Address the recommendations above in priority order\n" ++
  "2. Re-run the assessment after implementing changes\n" ++
  "3. Track progress over time using the maturity dashboard\n" ++
  "4. Share results with stakeholders and team members\n\n---\n\n" ++
  "*This report was automatically generated by the Cloud Native Maturity Assessment tool.*\n"

/-! ### The HTML renderer (`generate_html_report`)

The HTML template is one fixed constant string; the rendered document is
`template.format(...)` of the values below, in the keyword order of the
source, so two rendered documents are byte-identical exactly when their
value lists are equal. -/

/-- The pre-rendered recommendation fragment:
`'\n'.join(f'<li>{rec}</li>' for rec in recommendations)`. -/
def recommendationsHtml (recs : List String) : String :=
  String.intercalate "\n" (recs.map (fun x => "<li>" ++ x ++ "</li>"))

/-- The values substituted into the fixed HTML template, in source order:
timestamp, maturity level, percentage, total, the five scores, the five
rounded percentages, and the recommendation fragment. -/
def htmlReportValues (r : AssessmentRecord) : List String :=
  [r.timestamp, r.maturityLevel, toString r.scores.percentage, toString r.scores.total,
   toString r.scores.level1, toString r.scores.level2, toString r.scores.level3,
   toString r.scores.level4, toString r.scores.level5,
   toString (levelPct r.scores.level1 20), toString (levelPct r.scores.level2 35),
   toString (levelPct r.scores.level3 25), toString (levelPct r.scores.level4 15),
   toString (levelPct r.scores.level5 20),
   recommendationsHtml (generateRecommendations r.scores)]

/-- One full run of `MaturityReportGenerator`: load (with the wall-clock
string `now` feeding only the default record), then render the
recommendation list, the Markdown document and the HTML value list. -/
def maturityReportOutputs (file : JsonFile AssessmentRecord) (now : String) :
    Except ParseError (List String × String × List String) :=
  (loadAssessmentData file now).map fun r =>
    (generateRecommendations r.scores, generateMarkdownReport r, htmlReportValues r)

/-! ### `generate-security-dashboard.py` -/

/-- The `summary` object of `security-assessment-report.json`. -/
structure SecSummary where
  total_score : Int
  max_score : Int
  percentage : Int
  deriving Repr, DecidableEq

/-- A parsed security assessment report (`self.results['assessment']`). -/
structure SecReport where
  summary : SecSummary
  deriving Repr, DecidableEq

/-- The zero default substituted in the `except` branch of
`run_security_assessment`. -/
def defaultSecSummary : SecSummary :=
  { total_score := 0, max_score := 100, percentage := 0 }

/-- Outcome of the `subprocess.run(['./hack/security-assessment.sh'])`
call in the caller: it raises an exception, or completes returning the
child exit code (`check` is not set, so a nonzero exit does not raise). -/
inductive SubprocOutcome where
  | raises : SubprocOutcome
  | completes (exitCode : Int) : SubprocOutcome
  deriving Repr, DecidableEq

/-- What `run_security_assessment` leaves behind: the `assessment` entry
of `self.results` (absent when never assigned) and whether the `except`
branch printed an error message. -/
structure AssessmentOutcome where
  assessment : Option SecReport
  loggedError : Bool
  deriving Repr, DecidableEq

/-- The method `run_security_assessment`: the subprocess call and the subsequent
`json.load` both sit inside one `try` whose `except Exception` prints the
error and substitutes the zero default.  No failure escapes, hence every
branch is `.ok`. -/
def runSecurityAssessment (proc : SubprocOutcome) (reportFile : JsonFile SecReport) :
    Except ParseError AssessmentOutcome :=
  match proc with
  | .raises => .ok { assessment := some { summary := defaultSecSummary }, loggedError := true }
  | .completes _ =>
    match reportFile with
    | .absent => .ok { assessment := none, loggedError := false }
    | .malformed =>
        .ok { assessment := some { summary := defaultSecSummary }, loggedError := true }
    | .valid r => .ok { assessment := some r, loggedError := false }

/-- One vulnerability entry of a Trivy result (the `Severity` field may
be missing). -/
structure TrivyVuln where
  severity : Option String
  deriving Repr, DecidableEq

/-- One scan result of a Trivy report. -/
structure TrivyResult where
  vulnerabilities : List TrivyVuln
  deriving Repr, DecidableEq

/-- A parsed `trivy-results.json`. -/
structure TrivyData where
  results : List TrivyResult
  deriving Repr, DecidableEq

/-- The four severity tiers of `metrics['vulnerabilities']`. -/
structure VulnCounts where
  critical : Nat
  high : Nat
  medium : Nat
  low : Nat
  deriving Repr, DecidableEq

/-- Python `str.lower()` (character-wise lowercasing; the severities in
play are ASCII). -/
def pyLower (s : String) : String := String.mk (s.data.map Char.toLower)

/-- The loop body of `collect_vulnerability_metrics`:
`severity = vuln.get('Severity', 'LOW').lower()`, then increment the tier
if `severity` is one of the four dictionary keys, else do nothing. -/
def tallyVuln (acc : VulnCounts) (v : TrivyVuln) : VulnCounts :=
  let severity := pyLower (v.severity.getD "LOW")
  if severity = "critical" then { acc with critical := acc.critical + 1 }
  else if severity = "high" then { acc with high := acc.high + 1 }
  else if severity = "medium" then { acc with medium := acc.medium + 1 }
  else if severity = "low" then { acc with low := acc.low + 1 }
  else acc

/-- The nested loop of `collect_vulnerability_metrics` over
`trivy_data.get('Results', [])` and `result.get('Vulnerabilities', [])`. -/
def countVulns (td : TrivyData) : VulnCounts :=
  td.results.foldl (fun acc res => res.vulnerabilities.foldl tallyVuln acc)
    { critical := 0, high := 0, medium := 0, low := 0 }

/-- The number of vulnerability entries in the Trivy input. -/
def numVulnEntries (td : TrivyData) : Nat :=
  (td.results.map (fun res => res.vulnerabilities.length)).sum

/-- The method `collect_vulnerability_metrics`: absent file leaves the zero counts;
`json.load` on a malformed file raises with no handler in scope. -/
def collectVulnerabilityMetrics (trivyFile : JsonFile TrivyData) :
    Except ParseError VulnCounts :=
  match trivyFile with
  | .absent => .ok { critical := 0, high := 0, medium := 0, low := 0 }
  | .malformed => .error .jsonDecodeError
  | .valid td => .ok (countVulns td)

/-- The dashboard total `total_vulns = sum(vulnerabilities.values())` over the four tiers. -/
def totalVulns (v : VulnCounts) : Nat := v.critical + v.high + v.medium + v.low

/-- Per-standard compliance entry. -/
structure StandardResult where
  score : Int
  controls_passed : Int
  controls_total : Int
  deriving Repr, DecidableEq

/-- The compliance record of `generate_compliance_report`. -/
structure Compliance where
  cisKubernetes : StandardResult
  nistCSF : StandardResult
  owaspAPI : StandardResult
  overall_compliance : ℚ
  deriving Repr, DecidableEq

/-- The method `generate_compliance_report`: a hard-coded constant, built from no
input whatsoever. -/
def generateComplianceReport : Compliance :=
  { cisKubernetes := { score := 85, controls_passed := 95, controls_total := 112 }
    nistCSF := { score := 78, controls_passed := 156, controls_total := 200 }
    owaspAPI := { score := 90, controls_passed := 9, controls_total := 10 }
    overall_compliance := ⟨843, 10, by decide, by decide⟩ }

/-- Python `int()`: truncation toward zero (exact on the rational model). -/
def pyIntTrunc (q : ℚ) : Int := Int.tdiv q.num q.den

/-- The values substituted into the fixed dashboard HTML template by
`generate_html_dashboard`. -/
structure DashboardValues where
  security_score : Int
  compliance_score : Int
  total_vulns : Nat
  critical_vulns : Nat
  high_vulns : Nat
  medium_vulns : Nat
  low_vulns : Nat
  compliance : Compliance
  deriving Repr, DecidableEq

/-- The renderer `generate_html_dashboard`: reads `results` with `.get` defaults and
fills the template values; `compliance_score = int(overall_compliance)`,
`total_vulns = sum(vulnerabilities.values())`. -/
def generateHtmlDashboard (assessment : Option SecReport) (vulns : VulnCounts)
    (compliance : Compliance) : DashboardValues :=
  { security_score := (assessment.map (fun a => a.summary.percentage)).getD 0
    compliance_score := pyIntTrunc compliance.overall_compliance
    total_vulns := totalVulns vulns
    critical_vulns := vulns.critical
    high_vulns := vulns.high
    medium_vulns := vulns.medium
    low_vulns := vulns.low
    compliance := compliance }

/-- The `run` method: assessment, vulnerability metrics, compliance
report, dashboard rendering, in sequence. -/
def securityDashboardPipeline (proc : SubprocOutcome) (reportFile : JsonFile SecReport)
    (trivyFile : JsonFile TrivyData) : Except ParseError DashboardValues := do
  let a ← runSecurityAssessment proc reportFile
  let v ← collectVulnerabilityMetrics trivyFile
  return generateHtmlDashboard a.assessment v generateComplianceReport

/-! ### Concrete inputs used by the spec's examples -/

/-- The `scores` object of the spec's all-maximum example input. -/
def maxScores : Scores :=
  { total := 115, percentage := 100,
    level1 := 20, level2 := 35, level3 := 25, level4 := 15, level5 := 20 }

/-- Trivy input with exactly one CRITICAL and one LOW entry. -/
def trivyExample : TrivyData :=
  { results := [ { vulnerabilities :=
      [ { severity := some "CRITICAL" }, { severity := some "LOW" } ] } ] }

/-- Trivy input with a single entry whose severity is in no tier. -/
def unknownSeverityExample : TrivyData :=
  { results := [ { vulnerabilities := [ { severity := some "UNKNOWN" } ] } ] }

/-! ### Structural lemmas about the recommendation engine -/

theorem mem_level1Block {r : String} {s : Scores} (h : r ∈ level1Block s) :
    r ∈ level1Strings := by
  unfold level1Block at h
  unfold level1Strings
  split_ifs at h <;> simp_all <;> tauto

theorem mem_level2Block {r : String} {s : Scores} (h : r ∈ level2Block s) :
    r ∈ level2Strings := by
  unfold level2Block at h
  unfold level2Strings
  split_ifs at h <;> simp_all <;> tauto

theorem mem_level3Block {r : String} {s : Scores} (h : r ∈ level3Block s) :
    r ∈ level3Strings := by
  unfold level3Block at h
  unfold level3Strings
  split_ifs at h <;> simp_all <;> tauto

theorem mem_level4Block {r : String} {s : Scores} (h : r ∈ level4Block s) :
    r ∈ level4Strings := by
  unfold level4Block at h
  unfold level4Strings
  split_ifs at h <;> simp_all <;> tauto

theorem mem_level5Block {r : String} {s : Scores} (h : r ∈ level5Block s) :
    r ∈ level5Strings := by
  unfold level5Block at h
  unfold level5Strings
  split_ifs at h <;> simp_all <;> tauto

theorem level2Block_cond {r : String} {s : Scores} (h : r ∈ level2Block s) :
    s.level2 < 35 ∧ 15 ≤ s.level1 := by
  unfold level2Block at h
  by_cases hc : s.level2 < 35 ∧ 15 ≤ s.level1
  · exact hc
  · simp [hc] at h

theorem level3Block_cond {r : String} {s : Scores} (h : r ∈ level3Block s) :
    s.level3 < 25 ∧ 25 ≤ s.level2 := by
  unfold level3Block at h
  by_cases hc : s.level3 < 25 ∧ 25 ≤ s.level2
  · exact hc
  · simp [hc] at h

theorem level4Block_cond {r : String} {s : Scores} (h : r ∈ level4Block s) :
    s.level4 < 15 ∧ 15 ≤ s.level3 := by
  unfold level4Block at h
  by_cases hc : s.level4 < 15 ∧ 15 ≤ s.level3
  · exact hc
  · simp [hc] at h

theorem level5Block_cond {r : String} {s : Scores} (h : r ∈ level5Block s) :
    s.level5 < 20 ∧ 10 ≤ s.level4 := by
  unfold level5Block at h
  by_cases hc : s.level5 < 20 ∧ 10 ≤ s.level4
  · exact hc
  · simp [hc] at h

/-- Anything the engine emits is the fallback message or comes from one of
the five blocks. -/
theorem mem_gen_cases {r : String} {s : Scores} (h : r ∈ generateRecommendations s) :
    r = recExcellent ∨ r ∈ level1Block s ∨ r ∈ level2Block s ∨ r ∈ level3Block s ∨
      r ∈ level4Block s ∨ r ∈ level5Block s := by
  simp only [generateRecommendations] at h
  split at h
  · simp at h
    exact .inl h
  · simp only [List.mem_append] at h
    tauto

theorem c1_gate2 {r : String} {s : Scores}
    (hr : r ∈ level2Strings) (hmem : r ∈ generateRecommendations s) :
    s.level2 < 35 ∧ 15 ≤ s.level1 := by
  rcases mem_gen_cases hmem with he | h1 | h2 | h3 | h4 | h5
  · exact absurd (he ▸ hr) (by decide)
  · exact absurd hr ((by decide : ∀ x ∈ level1Strings, x ∉ level2Strings) r (mem_level1Block h1))
  · exact level2Block_cond h2
  · exact absurd hr ((by decide : ∀ x ∈ level3Strings, x ∉ level2Strings) r (mem_level3Block h3))
  · exact absurd hr ((by decide : ∀ x ∈ level4Strings, x ∉ level2Strings) r (mem_level4Block h4))
  · exact absurd hr ((by decide : ∀ x ∈ level5Strings, x ∉ level2Strings) r (mem_level5Block h5))

theorem c1_gate3 {r : String} {s : Scores}
    (hr : r ∈ level3Strings) (hmem : r ∈ generateRecommendations s) :
    s.level3 < 25 ∧ 25 ≤ s.level2 := by
  rcases mem_gen_cases hmem with he | h1 | h2 | h3 | h4 | h5
  · exact absurd (he ▸ hr) (by decide)
  · exact absurd hr ((by decide : ∀ x ∈ level1Strings, x ∉ level3Strings) r (mem_level1Block h1))
  · exact absurd hr ((by decide : ∀ x ∈ level2Strings, x ∉ level3Strings) r (mem_level2Block h2))
  · exact level3Block_cond h3
  · exact absurd hr ((by decide : ∀ x ∈ level4Strings, x ∉ level3Strings) r (mem_level4Block h4))
  · exact absurd hr ((by decide : ∀ x ∈ level5Strings, x ∉ level3Strings) r (mem_level5Block h5))

theorem c1_gate4 {r : String} {s : Scores}
    (hr : r ∈ level4Strings) (hmem : r ∈ generateRecommendations s) :
    s.level4 < 15 ∧ 15 ≤ s.level3 := by
  rcases mem_gen_cases hmem with he | h1 | h2 | h3 | h4 | h5
  · exact absurd (he ▸ hr) (by decide)
  · exact absurd hr ((by decide : ∀ x ∈ level1Strings, x ∉ level4Strings) r (mem_level1Block h1))
  · exact absurd hr ((by decide : ∀ x ∈ level2Strings, x ∉ level4Strings) r (mem_level2Block h2))
  · exact absurd hr ((by decide : ∀ x ∈ level3Strings, x ∉ level4Strings) r (mem_level3Block h3))
  · exact level4Block_cond h4
  · exact absurd hr ((by decide : ∀ x ∈ level5Strings, x ∉ level4Strings) r (mem_level5Block h5))

theorem c1_gate5 {r : String} {s : Scores}
    (hr : r ∈ level5Strings) (hmem : r ∈ generateRecommendations s) :
    s.level5 < 20 ∧ 10 ≤ s.level4 := by
  rcases mem_gen_cases hmem with he | h1 | h2 | h3 | h4 | h5
  · exact absurd (he ▸ hr) (by decide)
  · exact absurd hr ((by decide : ∀ x ∈ level1Strings, x ∉ level5Strings) r (mem_level1Block h1))
  · exact absurd hr ((by decide : ∀ x ∈ level2Strings, x ∉ level5Strings) r (mem_level2Block h2))
  · exact absurd hr ((by decide : ∀ x ∈ level3Strings, x ∉ level5Strings) r (mem_level3Block h3))
  · exact absurd hr ((by decide : ∀ x ∈ level4Strings, x ∉ level5Strings) r (mem_level4Block h4))
  · exact level5Block_cond h5

/-- The field `overall_compliance` of the constant compliance record is the Python
literal 84.3. -/
theorem overall_compliance_value :
    generateComplianceReport.overall_compliance = 84.3 := by
  show (⟨843, 10, by decide, by decide⟩ : ℚ) = 84.3
  rw [Rat.mk'_eq_divInt, Rat.divInt_eq_div]
  norm_num

/-- Python `int(84.3)` on the exact rational model is 84. -/
theorem compliance_score_84 :
    pyIntTrunc generateComplianceReport.overall_compliance = 84 := by decide

/-! ### The claims -/

/-- C1: in `_generate_recommendations`, rules for a later maturity level
are appended only when the prerequisite score on the earlier level is
met: for every scores record, Level 2 recommendations appear only if
`level1 >= 15`, Level 3 only if `level2 >= 25`, Level 4 only if
`level3 >= 15`, Level 5 only if `level4 >= 10`, each in addition to that
level having a score below its maximum. -/
theorem c1_staged_gating (s : Scores) :
    (∀ r ∈ level2Strings, r ∈ generateRecommendations s → 15 ≤ s.level1 ∧ s.level2 < 35) ∧
    (∀ r ∈ level3Strings, r ∈ generateRecommendations s → 25 ≤ s.level2 ∧ s.level3 < 25) ∧
    (∀ r ∈ level4Strings, r ∈ generateRecommendations s → 15 ≤ s.level3 ∧ s.level4 < 15) ∧
    (∀ r ∈ level5Strings, r ∈ generateRecommendations s → 10 ≤ s.level4 ∧ s.level5 < 20) :=
  ⟨fun _ hr hm => ⟨(c1_gate2 hr hm).2, (c1_gate2 hr hm).1⟩,
   fun _ hr hm => ⟨(c1_gate3 hr hm).2, (c1_gate3 hr hm).1⟩,
   fun _ hr hm => ⟨(c1_gate4 hr hm).2, (c1_gate4 hr hm).1⟩,
   fun _ hr hm => ⟨(c1_gate5 hr hm).2, (c1_gate5 hr hm).1⟩⟩

/-- Witness for C1 at a concrete record with `level1 = 15`, `level2 = 0`,
where the CRD recommendation is emitted. -/
theorem c1_staged_gating_witness :
    15 ≤ (Scores.mk 0 0 15 0 0 0 0).level1 ∧ (Scores.mk 0 0 15 0 0 0 0).level2 < 35 :=
  (c1_staged_gating (Scores.mk 0 0 15 0 0 0 0)).1 recCRDs (by decide) (by decide)

set_option maxRecDepth 8000 in
/-- C2: on the all-maximum record (115/115, 100 percent),
`_generate_recommendations` returns exactly the single fallback
"Excellent" message, and every row of the rendered Markdown score table
shows 100 percent. -/
theorem c2_all_max_scores :
    generateRecommendations maxScores = [recExcellent] ∧
    mdScoreTable maxScores =
      "| Level | Description | Score | Max | Percentage |\n" ++
      "|-------|-------------|-------|-----|------------|\n" ++
      "| 1 | Containerization | 20 | 20 | 100% |\n" ++
      "| 2 | Dynamic Orchestration | 35 | 35 | 100% |\n" ++
      "| 3 | Microservices Oriented | 25 | 25 | 100% |\n" ++
      "| 4 | Cloud Native Services | 15 | 15 | 100% |\n" ++
      "| 5 | Cloud Native Operations | 20 | 20 | 100% |\n" ++
      "| **Total** | | **115** | **115** | **100%** |\n" := by
  refine ⟨by decide, ?_⟩
  decide

/-- C3: for every category score `s` with `0 ≤ s ≤ maximum`, over the
fixed positive maximums 20, 35, 25 and 15, the displayed percentage is
the unique nearest integer to `(s / maximum) * 100` and lies in
`[0, 100]`; the divisors are the positive constants, never zero. -/
theorem c3_level_percentages :
    ((0 : Int) < 20 ∧ (0 : Int) < 35 ∧ (0 : Int) < 25 ∧ (0 : Int) < 15) ∧
    (∀ s : Nat, s ≤ 20 → pctOk s 20) ∧
    (∀ s : Nat, s ≤ 35 → pctOk s 35) ∧
    (∀ s : Nat, s ≤ 25 → pctOk s 25) ∧
    (∀ s : Nat, s ≤ 15 → pctOk s 15) := by decide

/-- Witness for C3 at `s = 7` out of 20 (35 percent). -/
theorem c3_level_percentages_witness : pctOk 7 20 :=
  c3_level_percentages.2.1 7 (by decide)

/-- C4: the Trivy input with one CRITICAL and one LOW entry yields
`critical=1, low=1, high=0, medium=0`, and the dashboard total is the sum
across the four tiers, here 2. -/
theorem c4_trivy_example_counts :
    countVulns trivyExample = { critical := 1, high := 0, medium := 0, low := 1 } ∧
    (∀ v : VulnCounts, totalVulns v = v.critical + v.high + v.medium + v.low) ∧
    (∀ (a : Option SecReport) (c : Compliance),
      (generateHtmlDashboard a (countVulns trivyExample) c).total_vulns = 2) := by
  refine ⟨by decide, fun v => rfl, fun a c => ?_⟩
  show totalVulns (countVulns trivyExample) = 2
  decide

/-- C5: loading a non-existent assessment file returns the all-zero
default record (total 0, percentage 0, every level 0, maturity level
"0 - Traditional") and never raises. -/
theorem c5_missing_file_defaults (now : String) :
    loadAssessmentData .absent now = .ok (defaultAssessmentRecord now) ∧
    (defaultAssessmentRecord now).scores.total = 0 ∧
    (defaultAssessmentRecord now).scores.percentage = 0 ∧
    (defaultAssessmentRecord now).scores.level1 = 0 ∧
    (defaultAssessmentRecord now).scores.level2 = 0 ∧
    (defaultAssessmentRecord now).scores.level3 = 0 ∧
    (defaultAssessmentRecord now).scores.level4 = 0 ∧
    (defaultAssessmentRecord now).scores.level5 = 0 ∧
    (defaultAssessmentRecord now).maturityLevel = "0 - Traditional" :=
  ⟨rfl, rfl, rfl, rfl, rfl, rfl, rfl, rfl, rfl⟩

/-- C6 counterexample: in `run_security_assessment` the `json.load` of
`security-assessment-report.json` sits inside the `try`, so a malformed
report file does NOT propagate a parse error: the failure is caught,
logged, and the zero default is substituted. -/
theorem c6_counterexample :
    runSecurityAssessment (.completes 0) .malformed
      = .ok { assessment := some { summary := defaultSecSummary }, loggedError := true } ∧
    runSecurityAssessment (.completes 0) .malformed ≠ .error .jsonDecodeError :=
  ⟨rfl, fun h => Except.noConfusion h⟩

/-- C6 amended: a malformed maturity assessment file and a malformed
Trivy results file each fail with a parse error that propagates unhandled
(no default substituted); a malformed security assessment report inside
`run_security_assessment` is instead caught, logged, and replaced by the
zero default. -/
theorem c6_amended_parse_error_paths (now : String) (c : Int) :
    loadAssessmentData .malformed now = .error .jsonDecodeError ∧
    collectVulnerabilityMetrics .malformed = .error .jsonDecodeError ∧
    runSecurityAssessment (.completes c) .malformed
      = .ok { assessment := some { summary := defaultSecSummary }, loggedError := true } ∧
    runSecurityAssessment .raises .malformed
      = .ok { assessment := some { summary := defaultSecSummary }, loggedError := true } :=
  ⟨rfl, rfl, rfl, rfl⟩

/-- C7 counterexample: when the child process merely exits nonzero the
`subprocess.run` call raises nothing, so with the report file absent
nothing is logged and no default record is substituted: the `assessment`
entry is simply never assigned. -/
theorem c7_counterexample :
    runSecurityAssessment (.completes 1) .absent
      = .ok { assessment := none, loggedError := false } ∧
    runSecurityAssessment (.completes 1) .absent
      ≠ .ok { assessment := some { summary := defaultSecSummary }, loggedError := true } := by
  refine ⟨rfl, fun h => ?_⟩
  have h2 := Except.ok.inj h
  simp at h2

/-- C7 amended: when the `subprocess.run` call raises an exception (for
any state of the report file) the failure is caught, logged to standard
output, and the zero default record substituted; a child that completes
with a nonzero exit code does not raise, and with the report file absent
no default is substituted and nothing is logged. -/
theorem c7_amended_exception_only (file : JsonFile SecReport) (c : Int) :
    runSecurityAssessment .raises file
      = .ok { assessment := some { summary := defaultSecSummary }, loggedError := true } ∧
    runSecurityAssessment (.completes c) .absent
      = .ok { assessment := none, loggedError := false } :=
  ⟨rfl, rfl⟩

/-- C8: report generation is deterministic: two runs on the same parsed
input record, at different wall-clock times, produce the identical
ordered recommendation list, the identical Markdown document and the
identical list of HTML template values. -/
theorem c8_deterministic_reports (r : AssessmentRecord) (t1 t2 : String) :
    maturityReportOutputs (.valid r) t1 = maturityReportOutputs (.valid r) t2 := rfl

/-- C9: `generate_compliance_report` is a constant (CIS 85 with 95/112,
NIST 78 with 156/200, OWASP 90 with 9/10, overall 84.3), so whatever the
assessment, report file and scan data, a successful dashboard run renders
the compliance score as the constant 84 = int(84.3). -/
theorem c9_constant_compliance (proc : SubprocOutcome) (reportFile : JsonFile SecReport)
    (trivyFile : JsonFile TrivyData) (out : DashboardValues)
    (h : securityDashboardPipeline proc reportFile trivyFile = .ok out) :
    out.compliance = generateComplianceReport ∧
    generateComplianceReport.cisKubernetes = ⟨85, 95, 112⟩ ∧
    generateComplianceReport.nistCSF = ⟨78, 156, 200⟩ ∧
    generateComplianceReport.owaspAPI = ⟨90, 9, 10⟩ ∧
    generateComplianceReport.overall_compliance = 84.3 ∧
    out.compliance_score = 84 := by
  cases proc <;> cases reportFile <;> cases trivyFile <;>
    first
      | exact Except.noConfusion h
      | (injection h with h
         subst h
         exact ⟨rfl, rfl, rfl, rfl, overall_compliance_value, compliance_score_84⟩)

/-- Witness for C9 on the run where the subprocess raises and both files
are absent. -/
theorem c9_constant_compliance_witness :
    (generateHtmlDashboard (some { summary := defaultSecSummary })
        { critical := 0, high := 0, medium := 0, low := 0 } generateComplianceReport).compliance
      = generateComplianceReport ∧
    generateComplianceReport.cisKubernetes = ⟨85, 95, 112⟩ ∧
    generateComplianceReport.nistCSF = ⟨78, 156, 200⟩ ∧
    generateComplianceReport.owaspAPI = ⟨90, 9, 10⟩ ∧
    generateComplianceReport.overall_compliance = 84.3 ∧
    (generateHtmlDashboard (some { summary := defaultSecSummary })
        { critical := 0, high := 0, medium := 0, low := 0 } generateComplianceReport).compliance_score
      = 84 :=
  c9_constant_compliance .raises .absent .absent _ rfl

/-- C10: a Trivy entry with no Severity field is counted in the low tier
(default "LOW"); an entry whose lowercased severity is none of
critical/high/medium/low is counted in no tier, so the sum of the tiers
can be strictly smaller than the number of entries. -/
theorem c10_severity_default_and_unknown :
    (∀ (acc : VulnCounts) (v : TrivyVuln), v.severity = none →
        tallyVuln acc v = { acc with low := acc.low + 1 }) ∧
    (∀ (acc : VulnCounts) (v : TrivyVuln) (sev : String), v.severity = some sev →
        pyLower sev ∉ (["critical", "high", "medium", "low"] : List String) →
        tallyVuln acc v = acc) ∧
    totalVulns (countVulns unknownSeverityExample) < numVulnEntries unknownSeverityExample := by
  refine ⟨fun acc v h => ?_, fun acc v sev h hns => ?_, by decide⟩
  · have hl : pyLower "LOW" = "low" := by decide
    simp [tallyVuln, h, hl]
  · simp only [List.mem_cons, List.not_mem_nil, or_false, not_or] at hns
    obtain ⟨h1, h2, h3, h4⟩ := hns
    simp [tallyVuln, h, h1, h2, h3, h4]

/-- Witness for C10: a missing severity goes to the low tier, an UNKNOWN
severity is dropped. -/
theorem c10_severity_default_and_unknown_witness :
    tallyVuln ⟨2, 3, 4, 5⟩ ⟨none⟩ = ⟨2, 3, 4, 6⟩ ∧
    tallyVuln ⟨2, 3, 4, 5⟩ ⟨some "UNKNOWN"⟩ = ⟨2, 3, 4, 5⟩ :=
  ⟨c10_severity_default_and_unknown.1 ⟨2, 3, 4, 5⟩ ⟨none⟩ rfl,
   c10_severity_default_and_unknown.2.1 ⟨2, 3, 4, 5⟩ ⟨some "UNKNOWN"⟩ "UNKNOWN" rfl (by decide)⟩

end Gunj
